import Mathlib

/-!
Verification development for the duat runner (`src/main.rs`), the live-reload
supervisor for the duat editor's user configuration crate.

The Rust source is shallowly embedded below:

* Filesystem paths are lists of components (`PathC`), mirroring Rust's
  `Path::ends_with`, which compares whole trailing components.
* The `notify` watcher callback (closure inside `spawn_watcher`) becomes the
  pure step function `watcherStep` over its captured mutable state
  (`sent_reload`), producing channel emissions.
* `main` becomes `mainRun`, a function from an abstract environment (results
  of filesystem probes, build exit status, load successes, per-cycle results
  of the invoked `run` entry point) to a trace of observable actions plus a
  final process outcome. The main `loop` becomes `loopRun`, structurally
  recursive over the list of per-cycle environments; running past the modeled
  horizon yields the `pending` outcome.
-/

namespace Duat

/-- A filesystem path, as its list of components (Rust `Path` semantics:
`ends_with` matches whole trailing components). -/
abbrev PathC := List String

/-- `Path::ends_with` from Rust: the suffix's components are the trailing
components of the path. -/
def pathEndsWith (p suffix : PathC) : Bool :=
  suffix.isSuffixOf p

/-- `CONFIG_FILE` on the default (non-windows, non-macos) target. -/
def CONFIG_FILE : String := "libconfig.so"

/-! ## Artifact watcher (`spawn_watcher`'s event closure) -/

/-- The mutable state captured by the watcher closure: the `sent_reload`
flag. -/
structure WatcherState where
  sentReload : Bool
deriving DecidableEq

/-- A filesystem event delivered by `notify`, restricted to the fields the
closure inspects: the event kind and its path list. -/
inductive FsEvent where
  | create (paths : List PathC)
  | accessCloseWrite (paths : List PathC)
  | other
deriving DecidableEq

/-- A send performed by the watcher closure: either a `(so_path, on_release)`
message on the `reload_tx` channel, or a `DuatEvent::ReloadConfig` on the
`duat_tx` application channel. -/
inductive WatchEmission where
  | reloadSignal (soPath : PathC) (onRelease : Bool)
  | duatReloadConfig
deriving DecidableEq

/-- The watcher closure from `spawn_watcher`: on `Create` it looks for a path
ending in `CONFIG_FILE`, sends `(so_path, on_release)` on `reload_tx` and sets
`sent_reload`; on `Access(Close(Write))` with a `.cargo-lock` path and
`sent_reload` set, it sends `DuatEvent::ReloadConfig` on `duat_tx` and clears
`sent_reload`; everything else is ignored. -/
def watcherStep (st : WatcherState) (e : FsEvent) :
    WatcherState × List WatchEmission :=
  match e with
  | .create paths =>
    match paths.find? (fun p => pathEndsWith p [CONFIG_FILE]) with
    | some soPath =>
      let onRelease := pathEndsWith soPath ["release", CONFIG_FILE]
      (⟨true⟩, [.reloadSignal soPath onRelease])
    | none => (st, [])
  | .accessCloseWrite paths =>
    if paths.any (fun p => pathEndsWith p [".cargo-lock"]) && st.sentReload then
      (⟨false⟩, [.duatReloadConfig])
    else
      (st, [])
  | .other => (st, [])

/-- Run the watcher closure over a sequence of events, collecting every
emission in order. -/
def watcherRun (st : WatcherState) : List FsEvent → WatcherState × List WatchEmission
  | [] => (st, [])
  | e :: es =>
    let (st', out) := watcherStep st e
    let (st'', out') := watcherRun st' es
    (st'', out ++ out')

/-- Is an emission a `(so_path, on_release)` watch signal on `reload_tx`? -/
def WatchEmission.isReloadSignal : WatchEmission → Bool
  | .reloadSignal _ _ => true
  | .duatReloadConfig => false

/-! ## The supervisor (`main`)

`main` interacts with the filesystem, the dynamic loader and the spawned
watcher. Those interactions are abstracted as an environment of results
(`Env`, `CycleEnv`); `mainRun` deterministically replays `main` against the
environment and records every observable action in order. File collections
(`Vec<Vec<FileRet>>`) are tracked by their length (only emptiness is ever
inspected); channel receivers are tracked by an identity tag (`Nat`). -/

/-- Observable actions of `main`, in program order. `invoke` is the entry
point call made inside the scoped worker thread: `fallback = true` means the
statically linked `duat::run_duat` default, `false` the `run` symbol of the
loaded config library; `prev` and `rx` are the file collection (by length)
and the event-channel receiver (by identity tag) passed in. -/
inductive Action where
  | logError (msg : String)
  | logInfo (msg : String)
  | runBuilder
  | loadLib (p : PathC)
  | spawnWatcher (ok : Bool)
  | uiOpen
  | uiClose
  | resolveEntry
  | invoke (fallback : Bool) (prev : Nat) (rx : Nat)
  | joinWorker
  | formClear
  | closeLib
  | recvSignal
deriving DecidableEq

/-- The final fate of the `main` process in the model. `errExit` is `main`
returning `Err` (the `?` operator); `panicked` is a thread panic from an
`unwrap`; `okExit` is `return Ok(())`; `pending` means execution continued
past the modeled horizon of cycle environments. -/
inductive Outcome where
  | okExit
  | errExit (msg : String)
  | panicked (msg : String)
  | pending
deriving DecidableEq

/-- Environment of one iteration of the supervisor loop: the result of
`find_run_duat` (`resolveOk`), what the invoked entry point returns
(`retFiles` length, `retRx` receiver tag, `retInstant`), whether
`lib.close()` succeeds, the message pulled from `reload_rx` when the watcher
is alive, and whether `Library::new(so_path)` on the reload path succeeds. -/
structure CycleEnv where
  resolveOk : Bool
  retFiles : Nat
  retRx : Nat
  retInstant : Option Unit
  closeOk : Bool
  signal : PathC × Bool
  reloadLoadOk : Bool

/-- What one loop iteration decides to do next: continue with a new
(possibly absent) library, file collection and receiver; break out of the
loop; or panic. -/
inductive Next where
  | cont (lib : Bool) (prev : Nat) (rx : Nat)
  | brk
  | panic (msg : String)
deriving DecidableEq

/-- One iteration of `main`'s `loop`, replayed against a `CycleEnv`.
`lib` is whether `lib` currently holds `Some` library, `prev` and `rx` the
file collection and receiver flowing into this cycle. Mirrors, in order:
`find_run_duat` with its `inspect_err` logging, the scoped worker invoking
either the resolved `run` or the fallback (`pre_setup` + `duat::run_duat`),
the join, `form::clear`, `lib.close().unwrap()`, the `prev.is_empty()`
break, `reload_rx.recv().unwrap()`, the profile info log, and the reload
`Library::new(so_path).ok()`. -/
def cycleStep (watcherOk lib : Bool) (prev rx : Nat) (c : CycleEnv) :
    List Action × Next :=
  let (t1, runFnOk) :=
    if lib then
      if c.resolveOk then ([Action.resolveEntry], true)
      else ([Action.resolveEntry, Action.logError "find_run_duat failed"], false)
    else ([Action.logError "No running lib!"], false)
  let t2 := t1 ++
    (if runFnOk then [Action.invoke false prev rx]
     else [Action.logError "Failed to load config crate", Action.invoke true prev rx]) ++
    [Action.joinWorker, Action.formClear]
  if lib && !c.closeOk then
    (t2, .panic "close unwrap")
  else
    let t3 := t2 ++ (if lib then [Action.closeLib] else [])
    if c.retFiles = 0 then
      (t3, .brk)
    else
      let t4 := t3 ++ [Action.recvSignal]
      if !watcherOk then
        (t4, .panic "recv unwrap: RecvError")
      else
        let t5 := t4 ++ [Action.logInfo "profile reloaded", Action.loadLib c.signal.1]
        (t5, .cont c.reloadLoadOk c.retFiles c.retRx)

/-- `main`'s `loop`, replayed over a list of cycle environments. -/
def loopRun (watcherOk : Bool) : Bool → Nat → Nat → List CycleEnv →
    List Action × Outcome
  | _, _, _, [] => ([], .pending)
  | lib, prev, rx, c :: rest =>
    match cycleStep watcherOk lib prev rx c with
    | (t, .brk) => (t, .okExit)
    | (t, .panic m) => (t, .panicked m)
    | (t, .cont lib' prev' rx') =>
      let (t', out) := loopRun watcherOk lib' prev' rx' rest
      (t ++ t', out)

/-- Results of `main`'s interactions before the loop: whether
`crate_dir().ok().filter(|cd| cd.exists())` produced a directory, the
compile-time `cfg!(debug_assertions)` and `built_info::TARGET`, the two
`try_exists` probes deciding the initial build, the `run_cargo` result
(`Err` or `Ok(status.success())`), the two `try_exists` probes of the
post-build `find`, whether the initial `Library::new` succeeds, whether
`spawn_watcher`'s watch registrations all succeed, and the loop's cycle
environments. -/
structure Env where
  crateDir : Option PathC
  debugAssertions : Bool
  target : String
  preProbe0 : Except Unit Bool
  preProbe1 : Except Unit Bool
  buildResult : Except Unit Bool
  postProbe0 : Except Unit Bool
  postProbe1 : Except Unit Bool
  initialLoadOk : Bool
  watcherOk : Bool
  cycles : List CycleEnv

/-- The two candidate artifact directories (`so_dir` in `main`): the plain
and target-qualified `debug` dirs under `cfg!(debug_assertions)`, else the
`release` ones. -/
def soDirs (debugAssertions : Bool) (target : String) (crateDir : PathC) :
    PathC × PathC :=
  if debugAssertions then
    (crateDir ++ ["target", "debug"], crateDir ++ ["target", target, "debug"])
  else
    (crateDir ++ ["target", "release"], crateDir ++ ["target", target, "release"])

/-- The `if let [Ok(false) | Err(_), Ok(false) | Err(_)]` pattern on the two
`try_exists` probes: build only when neither candidate is known to exist. -/
def needsInitialBuild (p0 p1 : Except Unit Bool) : Bool :=
  match p0, p1 with
  | .ok true, _ => false
  | _, .ok true => false
  | _, _ => true

/-- `libconfig_path.into_iter().find(|p| matches!(p.try_exists(), Ok(true)))`. -/
def findArtifact (post0 post1 : Except Unit Bool) (paths : PathC × PathC) :
    Option PathC :=
  match post0, post1 with
  | .ok true, _ => some paths.1
  | _, .ok true => some paths.2
  | _, _ => none

/-- The two candidate `libconfig.so` paths under a crate directory. -/
def configPaths (env : Env) (crateDir : PathC) : PathC × PathC :=
  let paths := soDirs env.debugAssertions env.target crateDir
  (paths.1 ++ [CONFIG_FILE], paths.2 ++ [CONFIG_FILE])

/-- The actions of the first-time build block: `run_cargo` plus its
success/failure logging, executed only when neither candidate probe says the
artifact exists. -/
def initialBuildTrace (env : Env) : List Action :=
  if needsInitialBuild env.preProbe0 env.preProbe1 then
    Action.runBuilder ::
      (match env.buildResult with
       | .ok true => [Action.logInfo "Compiled release profile"]
       | _ => [Action.logError "Failed to compile release profile"])
  else []

/-- `main`, replayed against an environment. Mirrors, in order: the
crate-dir check with its fallback-and-return branch, the first-time build
(`run_cargo` and its success/failure logging), the artifact `find` whose
`ok_or_eyre(...)?` exits with `Err` when nothing exists, the initial
`Library::new(...)?`, `spawn_watcher`, `Ui::open`, the loop (with
`prev = Vec::new()` and the original `duat_rx`, tag 0), and on loop break
`Ui::close` and `Ok(())`. -/
def mainRun (env : Env) : List Action × Outcome :=
  match env.crateDir with
  | none =>
    ([Action.logError "No config crate found, loading default config",
      Action.invoke true 0 0], .okExit)
  | some crateDir =>
    match findArtifact env.postProbe0 env.postProbe1 (configPaths env crateDir) with
    | none => (initialBuildTrace env, .errExit "libconfig.so not found!")
    | some p =>
      if env.initialLoadOk then
        let pre := initialBuildTrace env ++
          [Action.loadLib p, Action.spawnWatcher env.watcherOk, Action.uiOpen]
        let (lt, out) := loopRun env.watcherOk true 0 0 env.cycles
        match out with
        | .okExit => (pre ++ lt ++ [Action.uiClose], .okExit)
        | o => (pre ++ lt, o)
      else
        (initialBuildTrace env ++ [Action.loadLib p],
          .errExit "initial library load failed")

/-! ## Trace inspection helpers -/

/-- The shape of an action, forgetting its payload. -/
inductive Kind where
  | logErrK | logInfoK | runBuilderK | loadK | spawnWatcherK | uiOpenK
  | uiCloseK | resolveK | invokeK | joinK | formClearK | closeK | recvK
deriving DecidableEq

/-- Forget an action's payload. -/
def Action.kind : Action → Kind
  | .logError _ => .logErrK
  | .logInfo _ => .logInfoK
  | .runBuilder => .runBuilderK
  | .loadLib _ => .loadK
  | .spawnWatcher _ => .spawnWatcherK
  | .uiOpen => .uiOpenK
  | .uiClose => .uiCloseK
  | .resolveEntry => .resolveK
  | .invoke _ _ _ => .invokeK
  | .joinWorker => .joinK
  | .formClear => .formClearK
  | .closeLib => .closeK
  | .recvSignal => .recvK

/-- A trace's list of action shapes. -/
def kinds (l : List Action) : List Kind :=
  l.map Action.kind

/-- The receiver tag handed to the first entry-point invocation in a trace. -/
def invokeRx? (l : List Action) : Option Nat :=
  l.findSome? fun a =>
    match a with
    | .invoke _ _ r => some r
    | _ => none

/-- Does the trace invoke the built-in fallback entry point? -/
def hasFallbackInvoke (l : List Action) : Bool :=
  l.any fun a =>
    match a with
    | .invoke true _ _ => true
    | _ => false

/-- Does the trace log an error? -/
def hasLogError (l : List Action) : Bool :=
  l.any fun a =>
    match a with
    | .logError _ => true
    | _ => false

/-! ## Claim C4: watcher signaling protocol -/

/-- C4, counterexample. The claim says a Watch Signal `(artifact_path,
profile)` is never emitted on a creation event alone, only recorded, and
that the signal is emitted on the later build-lock close-write. In the code
the `(so_path, on_release)` send on `reload_tx` happens immediately inside
the `Create` arm — even from the initial state with no prior record — and
the close-write arm sends only `DuatEvent::ReloadConfig`, never a
`(artifact_path, profile)` signal. -/
theorem c4_counterexample_create_emits :
    (watcherStep ⟨false⟩ (.create
        [["home", "u", "cfg", "target", "debug", "libconfig.so"]])).2.any
      WatchEmission.isReloadSignal = true ∧
    (watcherStep ⟨true⟩ (.accessCloseWrite
        [["home", "u", "cfg", "target", "debug", ".cargo-lock"]])).2.any
      WatchEmission.isReloadSignal = false := by
  exact ⟨rfl, rfl⟩

/-- C4, amended: on a creation event whose paths include the artifact
filename, the watcher immediately emits exactly one Watch Signal
`(artifact_path, profile)` — profile Release iff the path ends in
`release/libconfig.so` — and sets the `sent_reload` flag; a creation with no
matching path does nothing; a close-write event never emits a Watch Signal;
a close-write on a build-lock file with the flag set emits exactly one
`ReloadConfig` application event and clears the flag; a close-write without
a recorded creation (or without a lock path) emits nothing. -/
theorem c4_watcher_protocol (st : WatcherState) (paths : List PathC) :
    (∀ p, paths.find? (fun q => pathEndsWith q [CONFIG_FILE]) = some p →
      watcherStep st (.create paths) =
        (⟨true⟩, [.reloadSignal p (pathEndsWith p ["release", CONFIG_FILE])])) ∧
    (paths.find? (fun q => pathEndsWith q [CONFIG_FILE]) = none →
      watcherStep st (.create paths) = (st, [])) ∧
    ((watcherStep st (.accessCloseWrite paths)).2.any
        WatchEmission.isReloadSignal = false) ∧
    (paths.any (fun p => pathEndsWith p [".cargo-lock"]) = true →
      st.sentReload = true →
      watcherStep st (.accessCloseWrite paths) = (⟨false⟩, [.duatReloadConfig])) ∧
    (paths.any (fun p => pathEndsWith p [".cargo-lock"]) = false ∨
        st.sentReload = false →
      watcherStep st (.accessCloseWrite paths) = (st, [])) := by
  refine ⟨?_, ?_, ?_, ?_, ?_⟩
  · intro p hp
    simp [watcherStep, hp]
  · intro hp
    simp [watcherStep, hp]
  · simp only [watcherStep]
    split
    · rfl
    · rfl
  · intro hl hf
    simp [watcherStep, hl, hf]
  · intro h
    rcases h with h | h <;> simp [watcherStep, h]

/-- Witness for `c4_watcher_protocol` at concrete events: a debug-profile
creation emits the signal at once; a lock-file close-write with the flag set
emits `ReloadConfig` and clears it. -/
theorem c4_watcher_protocol_witness :
    watcherStep ⟨false⟩ (.create [["cfg", "target", "debug", "libconfig.so"]]) =
      (⟨true⟩, [.reloadSignal ["cfg", "target", "debug", "libconfig.so"] false]) ∧
    watcherStep ⟨true⟩ (.accessCloseWrite [["cfg", "target", "debug", ".cargo-lock"]]) =
      (⟨false⟩, [.duatReloadConfig]) := by
  refine ⟨?_, ?_⟩
  · have h := (c4_watcher_protocol ⟨false⟩
      [["cfg", "target", "debug", "libconfig.so"]]).1
      ["cfg", "target", "debug", "libconfig.so"] (by decide)
    simpa using h
  · exact (c4_watcher_protocol ⟨true⟩
      [["cfg", "target", "debug", ".cargo-lock"]]).2.2.2.1 (by decide) rfl

/-! ## Loop helper lemmas -/

/-- The supervisor loop body contains no `?` operator: no iteration can make
`main` return `Err`. -/
theorem loopRun_ne_errExit (w : Bool) :
    ∀ (cs : List CycleEnv) (lib : Bool) (prev rx : Nat) (m : String),
      (loopRun w lib prev rx cs).2 ≠ Outcome.errExit m := by
  intro cs
  induction cs with
  | nil => intro lib prev rx m; simp [loopRun]
  | cons c rest ih =>
    intro lib prev rx m
    simp only [loopRun]
    rcases h : cycleStep w lib prev rx c with ⟨t, n⟩
    cases n with
    | cont lib' prev' rx' => simpa using ih lib' prev' rx' m
    | brk => simp
    | panic pm => simp

/-! ## Claim C5: unload strictly after join, join strictly after invoke -/

/-- C5: in every loop iteration there is exactly one entry-point invocation
and one worker join; the library close, when it happens, comes strictly
after the join, which comes strictly after the invocation — so the entry
point is never in flight while its backing handle is unloaded, and at most
one invocation runs at a time. -/
theorem c5_unload_after_join (w lib : Bool) (prev rx : Nat) (c : CycleEnv) :
    (kinds (cycleStep w lib prev rx c).1).count Kind.invokeK = 1 ∧
    (kinds (cycleStep w lib prev rx c).1).count Kind.joinK = 1 ∧
    (kinds (cycleStep w lib prev rx c).1).count Kind.closeK ≤ 1 ∧
    ((kinds (cycleStep w lib prev rx c).1).findIdx (· == Kind.invokeK) <
      (kinds (cycleStep w lib prev rx c).1).findIdx (· == Kind.joinK)) ∧
    (Kind.closeK ∈ kinds (cycleStep w lib prev rx c).1 →
      (kinds (cycleStep w lib prev rx c).1).findIdx (· == Kind.joinK) <
        (kinds (cycleStep w lib prev rx c).1).findIdx (· == Kind.closeK)) := by
  obtain ⟨ro, rf, rr, ri, co, sg, rl⟩ := c
  by_cases hf : rf = 0 <;>
    cases w <;> cases lib <;> cases ro <;> cases co <;>
      simp [cycleStep, kinds, Action.kind, hf] <;> decide

/-- Witness for `c5_unload_after_join`: a concrete cycle with a loaded
library does contain a close, and it is placed after the join. -/
theorem c5_unload_after_join_witness :
    Kind.closeK ∈
      kinds (cycleStep true true 1 0 ⟨true, 0, 0, none, true, ([], false), true⟩).1 ∧
    (kinds (cycleStep true true 1 0
        ⟨true, 0, 0, none, true, ([], false), true⟩).1).findIdx (· == Kind.joinK) <
      (kinds (cycleStep true true 1 0
        ⟨true, 0, 0, none, true, ([], false), true⟩).1).findIdx (· == Kind.closeK) := by
  refine ⟨by decide, ?_⟩
  exact (c5_unload_after_join true true 1 0
    ⟨true, 0, 0, none, true, ([], false), true⟩).2.2.2.2 (by decide)

/-! ## Claim C1: load/resolve failure degrades to the fallback -/

/-- C1: in any loop iteration where the library is absent (the reload-path
`Library::new(so_path).ok()` failed) or `find_run_duat` fails, the cycle
logs an error and invokes the built-in fallback entry point with the current
session state; the loop body can never make `main` return `Err`; and when
the returned file collection is non-empty, the watcher is alive and the
close succeeds, the iteration continues into the next reload cycle. -/
theorem c1_fallback_on_load_or_resolve_failure (w lib : Bool) (prev rx : Nat)
    (c : CycleEnv) (cs : List CycleEnv)
    (h : lib = false ∨ c.resolveOk = false) :
    hasLogError (cycleStep w lib prev rx c).1 = true ∧
    Action.invoke true prev rx ∈ (cycleStep w lib prev rx c).1 ∧
    (∀ m, (loopRun w lib prev rx (c :: cs)).2 ≠ Outcome.errExit m) ∧
    (c.retFiles ≠ 0 → w = true → (lib = true → c.closeOk = true) →
      (cycleStep w lib prev rx c).2 =
        Next.cont c.reloadLoadOk c.retFiles c.retRx) := by
  refine ⟨?_, ?_, fun m => loopRun_ne_errExit w (c :: cs) lib prev rx m, ?_⟩
  · obtain ⟨ro, rf, rr, ri, co, sg, rl⟩ := c
    rcases h with h | h <;> subst h <;>
      by_cases hf : rf = 0 <;>
        cases w <;> (try cases lib) <;> (try cases ro) <;> cases co <;>
          simp [cycleStep, hasLogError, hf]
  · obtain ⟨ro, rf, rr, ri, co, sg, rl⟩ := c
    rcases h with h | h <;> subst h <;>
      by_cases hf : rf = 0 <;>
        cases w <;> (try cases lib) <;> (try cases ro) <;> cases co <;>
          simp [cycleStep, hf]
  · intro hf hw hc
    obtain ⟨ro, rf, rr, ri, co, sg, rl⟩ := c
    subst hw
    rcases h with h | h <;> subst h <;>
      simp_all [cycleStep] <;> cases co <;> simp_all [cycleStep]

/-- Witness for `c1_fallback_on_load_or_resolve_failure`: a cycle with no
loaded library logs, runs the fallback and continues. -/
theorem c1_fallback_witness :
    hasLogError (cycleStep true false 2 5
      ⟨true, 3, 7, none, true, ([], false), true⟩).1 = true ∧
    Action.invoke true 2 5 ∈ (cycleStep true false 2 5
      ⟨true, 3, 7, none, true, ([], false), true⟩).1 ∧
    (cycleStep true false 2 5
      ⟨true, 3, 7, none, true, ([], false), true⟩).2 = Next.cont true 3 7 := by
  have h := c1_fallback_on_load_or_resolve_failure true false 2 5
    ⟨true, 3, 7, none, true, ([], false), true⟩ [] (Or.inl rfl)
  exact ⟨h.1, h.2.1, h.2.2.2 (by decide) rfl (by simp)⟩

/-! ## Claim C6: empty file collection ends the loop -/

/-- C6: when the invocation of a cycle returns an empty file collection (and
the close of the finished library, if any, succeeds), the iteration breaks:
the whole remaining loop run is exactly this cycle's trace with outcome
`okExit`, regardless of any further cycle environments — no further receive
on the watch channel, no further load, no further invocation. This cycle's
own trace contains no receive and no load either. -/
theorem c6_empty_files_terminates (w lib : Bool) (prev rx : Nat) (c : CycleEnv)
    (cs : List CycleEnv) (hempty : c.retFiles = 0)
    (hclose : lib = true → c.closeOk = true) :
    (cycleStep w lib prev rx c).2 = Next.brk ∧
    loopRun w lib prev rx (c :: cs) =
      ((cycleStep w lib prev rx c).1, Outcome.okExit) ∧
    Action.recvSignal ∉ (cycleStep w lib prev rx c).1 ∧
    (kinds (cycleStep w lib prev rx c).1).count Kind.loadK = 0 := by
  obtain ⟨ro, rf, rr, ri, co, sg, rl⟩ := c
  simp only at hempty hclose
  subst hempty
  have hbrk : (cycleStep w lib prev rx ⟨ro, 0, rr, ri, co, sg, rl⟩).2 = Next.brk := by
    cases lib <;> cases ro <;> cases co <;> simp_all [cycleStep]
  refine ⟨hbrk, ?_, ?_, ?_⟩
  · rcases ht : cycleStep w lib prev rx ⟨ro, 0, rr, ri, co, sg, rl⟩ with ⟨t, n⟩
    rw [ht] at hbrk
    simp at hbrk
    subst hbrk
    simp [loopRun, ht]
  · cases lib <;> cases ro <;> cases co <;> simp_all [cycleStep]
  · cases lib <;> cases ro <;> cases co <;>
      simp_all [cycleStep, kinds, Action.kind]

/-- Witness for `c6_empty_files_terminates` at a concrete cycle. -/
theorem c6_empty_files_terminates_witness :
    (cycleStep true true 4 0 ⟨true, 0, 9, none, true, ([], false), true⟩).2 =
      Next.brk ∧
    loopRun true true 4 0
      [⟨true, 0, 9, none, true, ([], false), true⟩,
       ⟨true, 1, 9, none, true, ([], false), true⟩] =
      ((cycleStep true true 4 0 ⟨true, 0, 9, none, true, ([], false), true⟩).1,
        Outcome.okExit) := by
  have h := c6_empty_files_terminates true true 4 0
    ⟨true, 0, 9, none, true, ([], false), true⟩
    [⟨true, 1, 9, none, true, ([], false), true⟩] rfl (fun _ => rfl)
  exact ⟨h.1, h.2.1⟩

/-! ## Claim C7: the receiver is threaded, never replaced -/

/-- C7: every cycle's invocation receives exactly the receiver tag the loop
iteration was entered with; when the iteration continues, the receiver
passed to the next iteration is precisely the one this cycle's invocation
returned (`c.retRx`); and the loop recursion forwards exactly those values.
Together: the receiver passed into cycle k+1 is the receiver returned from
cycle k — never a fresh one. -/
theorem c7_receiver_threading (w lib : Bool) (prev rx : Nat) (c : CycleEnv)
    (cs : List CycleEnv) :
    invokeRx? (cycleStep w lib prev rx c).1 = some rx ∧
    (∀ l' p' r', (cycleStep w lib prev rx c).2 = Next.cont l' p' r' →
      r' = c.retRx) ∧
    (∀ t l' p' r', cycleStep w lib prev rx c = (t, Next.cont l' p' r') →
      loopRun w lib prev rx (c :: cs) =
        (t ++ (loopRun w l' p' r' cs).1, (loopRun w l' p' r' cs).2)) := by
  obtain ⟨ro, rf, rr, ri, co, sg, rl⟩ := c
  refine ⟨?_, ?_, ?_⟩
  · by_cases hf : rf = 0 <;>
      cases w <;> cases lib <;> cases ro <;> cases co <;>
        simp [cycleStep, invokeRx?, hf]
  · intro l' p' r' h
    by_cases hf : rf = 0 <;>
      cases w <;> cases lib <;> cases ro <;> cases co <;>
        simp_all [cycleStep, hf]
  · intro t l' p' r' h
    simp [loopRun, h]

/-- Witness for `c7_receiver_threading`: a concrete successful cycle passes
tag 4 into its invocation and hands the returned tag 11 to the next cycle. -/
theorem c7_receiver_threading_witness :
    invokeRx? (cycleStep true true 1 4
      ⟨true, 2, 11, none, true, ([], false), true⟩).1 = some 4 ∧
    (cycleStep true true 1 4
      ⟨true, 2, 11, none, true, ([], false), true⟩).2 = Next.cont true 2 11 ∧
    loopRun true true 1 4 [⟨true, 2, 11, none, true, ([], false), true⟩] =
      ((cycleStep true true 1 4 ⟨true, 2, 11, none, true, ([], false), true⟩).1 ++
        (loopRun true true 2 11 ([] : List CycleEnv)).1,
       (loopRun true true 2 11 ([] : List CycleEnv)).2) := by
  have h := c7_receiver_threading true true 1 4
    ⟨true, 2, 11, none, true, ([], false), true⟩ []
  refine ⟨h.1, by decide, ?_⟩
  exact h.2.2 _ true 2 11 (by decide)

/-! ## More helper lemmas -/

/-- `kinds` distributes over trace concatenation. -/
theorem kinds_append (a b : List Action) : kinds (a ++ b) = kinds a ++ kinds b :=
  List.map_append Action.kind a b

/-- The first-time build block runs the builder exactly once when neither
probe saw an artifact, and not at all otherwise. -/
theorem initialBuildTrace_builderK (env : Env) :
    (kinds (initialBuildTrace env)).count Kind.runBuilderK =
      if needsInitialBuild env.preProbe0 env.preProbe1 then 1 else 0 := by
  unfold initialBuildTrace
  split
  · rcases env.buildResult with u | b
    · simp [kinds, Action.kind]
    · cases b <;> simp [kinds, Action.kind]
  · simp [kinds]

/-- The first-time build block performs no entry-point invocation. -/
theorem initialBuildTrace_invokeK (env : Env) :
    (kinds (initialBuildTrace env)).count Kind.invokeK = 0 := by
  unfold initialBuildTrace
  split
  · rcases env.buildResult with u | b
    · simp [kinds, Action.kind]
    · cases b <;> simp [kinds, Action.kind]
  · simp [kinds]

/-- No loop iteration runs the builder. -/
theorem cycleStep_builderK (w lib : Bool) (prev rx : Nat) (c : CycleEnv) :
    (kinds (cycleStep w lib prev rx c).1).count Kind.runBuilderK = 0 := by
  obtain ⟨ro, rf, rr, ri, co, sg, rl⟩ := c
  by_cases hf : rf = 0 <;>
    cases w <;> cases lib <;> cases ro <;> cases co <;>
      simp [cycleStep, kinds, Action.kind, hf]

/-- Every loop iteration invokes exactly one entry point. -/
theorem cycleStep_invokeK (w lib : Bool) (prev rx : Nat) (c : CycleEnv) :
    (kinds (cycleStep w lib prev rx c).1).count Kind.invokeK = 1 := by
  obtain ⟨ro, rf, rr, ri, co, sg, rl⟩ := c
  by_cases hf : rf = 0 <;>
    cases w <;> cases lib <;> cases ro <;> cases co <;>
      simp [cycleStep, kinds, Action.kind, hf]

/-- The whole loop never runs the builder. -/
theorem loopRun_builderK (w : Bool) :
    ∀ (cs : List CycleEnv) (lib : Bool) (prev rx : Nat),
      (kinds (loopRun w lib prev rx cs).1).count Kind.runBuilderK = 0 := by
  intro cs
  induction cs with
  | nil => intro lib prev rx; simp [loopRun, kinds]
  | cons c rest ih =>
    intro lib prev rx
    simp only [loopRun]
    rcases ht : cycleStep w lib prev rx c with ⟨t, n⟩
    have hc := cycleStep_builderK w lib prev rx c
    rw [ht] at hc
    cases n with
    | cont lib' prev' rx' =>
      simp only []
      rw [kinds_append, List.count_append, hc, ih lib' prev' rx']
    | brk => simpa using hc
    | panic pm => simpa using hc

/-- When the watch registrations failed, the only live sender of the reload
channel was dropped with the discarded watcher; a cycle that ends non-empty
makes the whole loop run end in the receive-unwrap panic, its trace being
exactly that cycle's trace. -/
theorem loopRun_watcher_dead (lib : Bool) (prev rx : Nat) (c : CycleEnv)
    (cs : List CycleEnv) (hf : c.retFiles ≠ 0)
    (hc : lib = true → c.closeOk = true) :
    loopRun false lib prev rx (c :: cs) =
      ((cycleStep false lib prev rx c).1,
        Outcome.panicked "recv unwrap: RecvError") := by
  have hstep : (cycleStep false lib prev rx c).2 =
      Next.panic "recv unwrap: RecvError" := by
    obtain ⟨ro, rf, rr, ri, co, sg, rl⟩ := c
    simp only at hf hc
    cases lib <;> cases ro <;> cases co <;> simp_all [cycleStep]
  rcases ht : cycleStep false lib prev rx c with ⟨t, n⟩
  rw [ht] at hstep
  simp at hstep
  subst hstep
  simp [loopRun, ht]

/-! ## Claim C8: no configuration crate means one fallback cycle, no
watcher, no builder -/

/-- C8: when `crate_dir()` fails or the directory does not exist, `main`
logs the error, invokes the built-in fallback exactly once with an empty
file collection and the original receiver, and returns `Ok(())` — its whole
trace is just those two actions, so the watcher is never spawned and the
builder never runs. -/
theorem c8_no_config_crate (env : Env) (h : env.crateDir = none) :
    mainRun env =
      ([Action.logError "No config crate found, loading default config",
        Action.invoke true 0 0], Outcome.okExit) ∧
    (kinds (mainRun env).1).count Kind.invokeK = 1 ∧
    hasFallbackInvoke (mainRun env).1 = true ∧
    (kinds (mainRun env).1).count Kind.runBuilderK = 0 ∧
    (kinds (mainRun env).1).count Kind.spawnWatcherK = 0 := by
  have hm : mainRun env =
      ([Action.logError "No config crate found, loading default config",
        Action.invoke true 0 0], Outcome.okExit) := by
    unfold mainRun
    rw [h]
  refine ⟨hm, ?_, ?_, ?_, ?_⟩ <;>
    rw [hm] <;> decide

/-- Witness for `c8_no_config_crate` at a concrete environment. -/
theorem c8_no_config_crate_witness :
    mainRun ⟨none, true, "tgt", .ok false, .ok false, .ok false, .ok false,
        .ok false, true, true, []⟩ =
      ([Action.logError "No config crate found, loading default config",
        Action.invoke true 0 0], Outcome.okExit) := by
  exact (c8_no_config_crate _ rfl).1

/-! ## Claim C2: initial build failure with no artifact anywhere -/

/-- C2, counterexample. The claim says that when the initial build fails and
no artifact exists anywhere, the Supervisor still runs one fallback cycle
rather than aborting. In the code the post-build
`find(...).ok_or_eyre(...)?` makes `main` return `Err` at once: the run
below builds (and fails), finds nothing, performs zero invocations, and
exits with the `libconfig.so not found!` error. -/
theorem c2_counterexample_build_fail_exits :
    (mainRun ⟨some ["home", "u", "cfg"], true, "tgt", .ok false, .ok false,
        .ok false, .ok false, .ok false, true, true, []⟩).2 =
      Outcome.errExit "libconfig.so not found!" ∧
    Action.runBuilder ∈ (mainRun ⟨some ["home", "u", "cfg"], true, "tgt",
        .ok false, .ok false, .ok false, .ok false, .ok false, true, true,
        []⟩).1 ∧
    (kinds (mainRun ⟨some ["home", "u", "cfg"], true, "tgt", .ok false,
        .ok false, .ok false, .ok false, .ok false, true, true, []⟩).1).count
      Kind.invokeK = 0 := by
  refine ⟨rfl, ?_, rfl⟩
  decide

/-- C2, amended: if the configuration crate exists, neither candidate
pre-probe sees an artifact, the build does not succeed, and the post-build
probes still find no artifact, then `main` logs the build failure and
returns `Err "libconfig.so not found!"` without running any cycle — the
process aborts instead of falling back. -/
theorem c2_build_fail_no_artifact_errexit (env : Env) (d : PathC)
    (hcd : env.crateDir = some d)
    (hpre : needsInitialBuild env.preProbe0 env.preProbe1 = true)
    (hbuild : env.buildResult ≠ .ok true)
    (hq0 : env.postProbe0 ≠ .ok true) (hq1 : env.postProbe1 ≠ .ok true) :
    hasLogError (mainRun env).1 = true ∧
    Action.runBuilder ∈ (mainRun env).1 ∧
    (mainRun env).2 = Outcome.errExit "libconfig.so not found!" ∧
    (kinds (mainRun env).1).count Kind.invokeK = 0 := by
  have hfa : findArtifact env.postProbe0 env.postProbe1
      (configPaths env d) = none := by
    unfold findArtifact
    rcases h0 : env.postProbe0 with u | b0
    · rcases h1 : env.postProbe1 with u1 | b1
      · rfl
      · cases b1
        · rfl
        · exact absurd h1 hq1
    · cases b0
      · rcases h1 : env.postProbe1 with u1 | b1
        · rfl
        · cases b1
          · rfl
          · exact absurd h1 hq1
      · exact absurd h0 hq0
  have hm : mainRun env = (initialBuildTrace env,
      Outcome.errExit "libconfig.so not found!") := by
    simp only [mainRun, hcd, hfa]
  have hbt : initialBuildTrace env =
      [Action.runBuilder, Action.logError "Failed to compile release profile"] := by
    rcases hb : env.buildResult with u | b
    · simp [initialBuildTrace, hpre, hb]
    · cases b
      · simp [initialBuildTrace, hpre, hb]
      · exact absurd hb hbuild
  rw [hm, hbt]
  refine ⟨rfl, ?_, rfl, rfl⟩
  simp

/-- Witness for `c2_build_fail_no_artifact_errexit` at the counterexample
environment. -/
theorem c2_build_fail_witness :
    (mainRun ⟨some ["home", "u", "cfg"], true, "tgt", .ok false, .ok false,
        .ok false, .ok false, .ok false, true, true, []⟩).2 =
      Outcome.errExit "libconfig.so not found!" ∧
    (kinds (mainRun ⟨some ["home", "u", "cfg"], true, "tgt", .ok false,
        .ok false, .ok false, .ok false, .ok false, true, true, []⟩).1).count
      Kind.invokeK = 0 := by
  have h := c2_build_fail_no_artifact_errexit
    ⟨some ["home", "u", "cfg"], true, "tgt", .ok false, .ok false, .ok false,
      .ok false, .ok false, true, true, []⟩ ["home", "u", "cfg"] rfl rfl
    (by simp) (by simp) (by simp)
  exact ⟨h.2.2.1, h.2.2.2⟩

/-! ## Claim C3: a failed watch registration is not fatal at bootstrap -/

/-- C3, counterexample. The claim says a watcher-setup failure terminates
the process before the main loop starts. In the code `spawn_watcher`'s
`Result` is bound to `_watcher` without `?` or `unwrap`, so `main` proceeds:
in the run below all watch registrations fail, yet the loop starts and
performs an entry-point invocation, and the process later dies in a panic at
the watch-channel receive — it was not terminated at bootstrap. -/
theorem c3_counterexample_watch_fail_loop_runs :
    Action.spawnWatcher false ∈ (mainRun ⟨some ["cfg"], true, "tgt",
        .ok true, .ok false, .ok false, .ok true, .ok false, true, false,
        [⟨true, 1, 0, none, true, ([], false), true⟩]⟩).1 ∧
    (kinds (mainRun ⟨some ["cfg"], true, "tgt", .ok true, .ok false,
        .ok false, .ok true, .ok false, true, false,
        [⟨true, 1, 0, none, true, ([], false), true⟩]⟩).1).count
      Kind.invokeK = 1 ∧
    (mainRun ⟨some ["cfg"], true, "tgt", .ok true, .ok false, .ok false,
        .ok true, .ok false, true, false,
        [⟨true, 1, 0, none, true, ([], false), true⟩]⟩).2 =
      Outcome.panicked "recv unwrap: RecvError" := by
  refine ⟨by decide, by decide, by decide⟩

/-- C3, amended: a failed watch registration is propagated by
`spawn_watcher` to `main`, but `main` stores the `Result` without checking
it, so the Supervisor's loop still starts (an invocation happens); if the
first cycle then ends with a non-empty file collection, the process panics
at the watch-signal wait instead of terminating cleanly at bootstrap. -/
theorem c3_watch_failure_ignored (env : Env) (d : PathC) (c : CycleEnv)
    (cs : List CycleEnv) (hcd : env.crateDir = some d)
    (hq0 : env.postProbe0 = Except.ok true)
    (hil : env.initialLoadOk = true)
    (hw : env.watcherOk = false)
    (hcy : env.cycles = c :: cs)
    (hf : c.retFiles ≠ 0) (hco : c.closeOk = true) :
    Action.spawnWatcher false ∈ (mainRun env).1 ∧
    (kinds (mainRun env).1).count Kind.invokeK = 1 ∧
    (mainRun env).2 = Outcome.panicked "recv unwrap: RecvError" := by
  have hfa : findArtifact env.postProbe0 env.postProbe1 (configPaths env d) =
      some (configPaths env d).1 := by
    simp [findArtifact, hq0]
  have hloop := loopRun_watcher_dead true 0 0 c cs hf (fun _ => hco)
  have hm : mainRun env =
      (initialBuildTrace env ++
        [Action.loadLib (configPaths env d).1, Action.spawnWatcher false,
          Action.uiOpen] ++ (cycleStep false true 0 0 c).1,
       Outcome.panicked "recv unwrap: RecvError") := by
    simp only [mainRun, hcd, hfa, hil, hw, hcy, hloop, if_true]
  rw [hm]
  refine ⟨by simp, ?_, rfl⟩
  rw [kinds_append, kinds_append, List.count_append, List.count_append,
    initialBuildTrace_invokeK, cycleStep_invokeK]
  simp [kinds, Action.kind]

/-- Witness for `c3_watch_failure_ignored` at the counterexample
environment. -/
theorem c3_watch_failure_ignored_witness :
    Action.spawnWatcher false ∈ (mainRun ⟨some ["cfg"], true, "tgt",
        .ok true, .ok false, .ok false, .ok true, .ok false, true, false,
        [⟨true, 1, 0, none, true, ([], false), true⟩]⟩).1 ∧
    (mainRun ⟨some ["cfg"], true, "tgt", .ok true, .ok false, .ok false,
        .ok true, .ok false, true, false,
        [⟨true, 1, 0, none, true, ([], false), true⟩]⟩).2 =
      Outcome.panicked "recv unwrap: RecvError" := by
  have h := c3_watch_failure_ignored
    ⟨some ["cfg"], true, "tgt", .ok true, .ok false, .ok false, .ok true,
      .ok false, true, false, [⟨true, 1, 0, none, true, ([], false), true⟩]⟩
    ["cfg"] ⟨true, 1, 0, none, true, ([], false), true⟩ [] rfl rfl rfl rfl rfl
    (by decide) rfl
  exact ⟨h.1, h.2.2⟩

/-! ## Claim C9: the builder runs at most once, eagerly, only if needed -/

/-- `needsInitialBuild` is false as soon as one probe reports an artifact. -/
theorem needsInitialBuild_false_of_found (p0 p1 : Except Unit Bool)
    (h : p0 = .ok true ∨ p1 = .ok true) :
    needsInitialBuild p0 p1 = false := by
  rcases h with h | h <;> subst h
  · rcases p1 with u | b
    · rfl
    · cases b <;> rfl
  · rcases p0 with u | b
    · rfl
    · cases b <;> rfl

/-- When a build is needed, the build block is the builder action followed
by one log line. -/
theorem initialBuildTrace_shape (env : Env)
    (h : needsInitialBuild env.preProbe0 env.preProbe1 = true) :
    ∃ m, initialBuildTrace env = [Action.runBuilder, m] ∧
      (Action.kind m = Kind.logInfoK ∨ Action.kind m = Kind.logErrK) := by
  rcases hb : env.buildResult with u | b
  · exact ⟨Action.logError "Failed to compile release profile",
      by simp [initialBuildTrace, h, hb], Or.inr rfl⟩
  · cases b
    · exact ⟨Action.logError "Failed to compile release profile",
        by simp [initialBuildTrace, h, hb], Or.inr rfl⟩
    · exact ⟨Action.logInfo "Compiled release profile",
        by simp [initialBuildTrace, h, hb], Or.inl rfl⟩

/-- Every `mainRun` trace is either the no-crate fallback trace or the
build block followed by actions that never run the builder. -/
theorem mainRun_decomp (env : Env) :
    (env.crateDir = none ∧
      (mainRun env).1 =
        [Action.logError "No config crate found, loading default config",
          Action.invoke true 0 0]) ∨
    ∃ t, (mainRun env).1 = initialBuildTrace env ++ t ∧
      (kinds t).count Kind.runBuilderK = 0 := by
  rcases hcd : env.crateDir with _ | d
  · left
    refine ⟨rfl, ?_⟩
    simp [mainRun, hcd]
  · right
    rcases hfa : findArtifact env.postProbe0 env.postProbe1
        (configPaths env d) with _ | p
    · refine ⟨[], ?_, by simp [kinds]⟩
      simp [mainRun, hcd, hfa]
    · by_cases hil : env.initialLoadOk = true
      · rcases hlo : loopRun env.watcherOk true 0 0 env.cycles with ⟨lt, out⟩
        have hltb : (kinds lt).count Kind.runBuilderK = 0 := by
          have h := loopRun_builderK env.watcherOk env.cycles true 0 0
          rw [hlo] at h
          exact h
        cases out with
        | okExit =>
          refine ⟨[Action.loadLib p, Action.spawnWatcher env.watcherOk,
            Action.uiOpen] ++ lt ++ [Action.uiClose], ?_, ?_⟩
          · simp [mainRun, hcd, hfa, hil, hlo]
          · simp only [kinds] at hltb ⊢
            simp [List.map_append, List.count_append, Action.kind, hltb]
        | errExit m =>
          refine ⟨[Action.loadLib p, Action.spawnWatcher env.watcherOk,
            Action.uiOpen] ++ lt, ?_, ?_⟩
          · simp [mainRun, hcd, hfa, hil, hlo]
          · simp only [kinds] at hltb ⊢
            simp [List.map_append, List.count_append, Action.kind, hltb]
        | panicked m =>
          refine ⟨[Action.loadLib p, Action.spawnWatcher env.watcherOk,
            Action.uiOpen] ++ lt, ?_, ?_⟩
          · simp [mainRun, hcd, hfa, hil, hlo]
          · simp only [kinds] at hltb ⊢
            simp [List.map_append, List.count_append, Action.kind, hltb]
        | pending =>
          refine ⟨[Action.loadLib p, Action.spawnWatcher env.watcherOk,
            Action.uiOpen] ++ lt, ?_, ?_⟩
          · simp [mainRun, hcd, hfa, hil, hlo]
          · simp only [kinds] at hltb ⊢
            simp [List.map_append, List.count_append, Action.kind, hltb]
      · refine ⟨[Action.loadLib p], ?_, by simp [kinds, Action.kind]⟩
        simp [mainRun, hcd, hfa, hil]

/-- C9: across a whole process run the builder runs at most once; it never
runs when a candidate probe already sees an artifact; and when it does run
(a build was needed and a crate directory exists), it is the very first
action, strictly before any load attempt. -/
theorem c9_builder_once (env : Env) :
    (kinds (mainRun env).1).count Kind.runBuilderK ≤ 1 ∧
    (env.preProbe0 = .ok true ∨ env.preProbe1 = .ok true →
      (kinds (mainRun env).1).count Kind.runBuilderK = 0) ∧
    (needsInitialBuild env.preProbe0 env.preProbe1 = true →
      ∀ d, env.crateDir = some d →
        (kinds (mainRun env).1).findIdx (· == Kind.runBuilderK) <
          (kinds (mainRun env).1).findIdx (· == Kind.loadK)) := by
  rcases mainRun_decomp env with ⟨hcd, ht⟩ | ⟨t, ht, htc⟩
  · rw [ht]
    refine ⟨by decide, fun _ => by decide, ?_⟩
    intro _ d hd
    rw [hcd] at hd
    exact absurd hd (by simp)
  · rw [ht]
    have hbt := initialBuildTrace_builderK env
    refine ⟨?_, ?_, ?_⟩
    · rw [kinds_append, List.count_append, htc, hbt]
      split <;> simp
    · intro h
      rw [kinds_append, List.count_append, htc, hbt,
        needsInitialBuild_false_of_found env.preProbe0 env.preProbe1 h]
      simp
    · intro hneed d _
      obtain ⟨m, hshape, hmk⟩ := initialBuildTrace_shape env hneed
      have hk1 : (Action.kind m == Kind.runBuilderK) = false := by
        rcases hmk with hmk | hmk <;> rw [hmk] <;> rfl
      have hk2 : (Action.kind m == Kind.loadK) = false := by
        rcases hmk with hmk | hmk <;> rw [hmk] <;> rfl
      rw [hshape]
      simp only [List.cons_append, List.nil_append, kinds, List.map_cons,
        List.findIdx_cons, hk1, hk2]
      simp only
        [show (Action.kind Action.runBuilder == Kind.runBuilderK) = true from rfl,
         show (Action.kind Action.runBuilder == Kind.loadK) = false from rfl,
         cond_true, cond_false]
      omega

/-- Witness for `c9_builder_once`: one run where an artifact pre-exists (the
builder never runs) and one where a build is needed (the builder is action
zero, before any load). -/
theorem c9_builder_once_witness :
    (kinds (mainRun ⟨some ["cfg"], true, "tgt", .ok true, .ok false,
        .ok false, .ok true, .ok false, true, true, []⟩).1).count
      Kind.runBuilderK = 0 ∧
    ((kinds (mainRun ⟨some ["home", "u", "cfg"], true, "tgt", .ok false,
        .ok false, .ok false, .ok false, .ok false, true, true,
        []⟩).1).findIdx (· == Kind.runBuilderK) <
      (kinds (mainRun ⟨some ["home", "u", "cfg"], true, "tgt", .ok false,
        .ok false, .ok false, .ok false, .ok false, true, true,
        []⟩).1).findIdx (· == Kind.loadK)) := by
  constructor
  · exact (c9_builder_once ⟨some ["cfg"], true, "tgt", .ok true, .ok false,
      .ok false, .ok true, .ok false, true, true, []⟩).2.1 (Or.inl rfl)
  · exact (c9_builder_once ⟨some ["home", "u", "cfg"], true, "tgt",
      .ok false, .ok false, .ok false, .ok false, .ok false, true, true,
      []⟩).2.2 rfl ["home", "u", "cfg"] rfl

/-! ## Claim C10: dropped watch-channel senders make the wait panic -/

/-- C10: when the watch registrations failed, `spawn_watcher`'s `Result` —
holding the only live clone of `reload_tx` inside the dropped watcher
closure — is discarded, so `reload_rx.recv()` returns `Err`; a cycle that
ends with a non-empty file collection then reaches
`reload_rx.recv().unwrap()` and panics rather than exiting cleanly or
falling back. Likewise `lib.close().unwrap()` panics when closing the
finished library fails. -/
theorem c10_recv_unwrap_panics (w lib : Bool) (prev rx : Nat) (c : CycleEnv)
    (cs : List CycleEnv) :
    (w = false → c.retFiles ≠ 0 → (lib = true → c.closeOk = true) →
      (cycleStep w lib prev rx c).2 = Next.panic "recv unwrap: RecvError" ∧
      (loopRun w lib prev rx (c :: cs)).2 =
        Outcome.panicked "recv unwrap: RecvError") ∧
    (lib = true → c.closeOk = false →
      (loopRun w lib prev rx (c :: cs)).2 = Outcome.panicked "close unwrap") := by
  obtain ⟨ro, rf, rr, ri, co, sg, rl⟩ := c
  constructor
  · intro hw hf hc
    subst hw
    have hstep : (cycleStep false lib prev rx ⟨ro, rf, rr, ri, co, sg, rl⟩).2 =
        Next.panic "recv unwrap: RecvError" := by
      cases lib <;> cases ro <;> cases co <;> simp_all [cycleStep]
    refine ⟨hstep, ?_⟩
    rcases ht : cycleStep false lib prev rx ⟨ro, rf, rr, ri, co, sg, rl⟩ with ⟨t, n⟩
    rw [ht] at hstep
    simp at hstep
    subst hstep
    simp [loopRun, ht]
  · intro hl hc
    subst hl
    simp only at hc
    subst hc
    have hstep : (cycleStep w true prev rx ⟨ro, rf, rr, ri, false, sg, rl⟩).2 =
        Next.panic "close unwrap" := by
      cases ro <;> simp [cycleStep]
    rcases ht : cycleStep w true prev rx ⟨ro, rf, rr, ri, false, sg, rl⟩ with ⟨t, n⟩
    rw [ht] at hstep
    simp at hstep
    subst hstep
    simp [loopRun, ht]

/-- Witness for `c10_recv_unwrap_panics`: with the watcher dead and one
non-empty cycle, the loop ends in the receive-unwrap panic. -/
theorem c10_recv_unwrap_panics_witness :
    (loopRun false true 0 0 [⟨true, 2, 3, none, true, ([], false), true⟩]).2 =
      Outcome.panicked "recv unwrap: RecvError" := by
  exact ((c10_recv_unwrap_panics false true 0 0
    ⟨true, 2, 3, none, true, ([], false), true⟩ []).1 rfl (by decide)
    (fun _ => rfl)).2

end Duat
